import Mathlib

/-!
Shallow embedding of the pharmacy inventory tracker's ledger, dispense and
alerting logic (src/inventory/models.py, views.py, forms.py,
management/commands/check_alerts.py, management/commands/import_csv.py).

Dates (`DateField`) are modelled as integer day numbers; datetimes
(`DateTimeField`) as integer seconds, with `timedelta(days = d)` on a
datetime being `d * 86400`.  Quantities (`PositiveIntegerField`) are `Nat`.
The database is a record of lists of rows, with synthetic primary keys
handed out from per-table counters.  Decimal fields are modelled as
integer cents.
-/

namespace Pharmacy

/-- Row of `MedicineInventory` (models.py lines 7-49).  `id` is the storage
primary key; `created_by` is the owning user's name. -/
structure MedicineInventory where
  id : Nat
  date : Int
  medicine_name : String
  dosage_form : String
  batch_no : String
  expiry_date : Int
  quantity_in : Nat
  quantity_out : Nat
  storage_condition : String
  dispensed_to : String
  notes : String
  created_by : Option String
  generic_name : String
  manufacturer : String
  strength : String
  unit_cost : Option Int
  supplier_name : String
  prescribing_doctor : String
  minimum_stock_level : Nat
  deriving Repr, DecidableEq

/-- Row of `DispenseHistory` (models.py lines 123-140).  `inventory_record`
is the nullable foreign key to a `MedicineInventory` row, by id. -/
structure DispenseHistory where
  date : Int
  medicine_name : String
  dosage_form : String
  batch_no : String
  dispensed_to : String
  quantity_out : Nat
  inventory_record : Option Nat
  patient_name : String
  patient_id : String
  prescribing_doctor : String
  prescription_number : String
  dispensed_by : Option String
  notes : String
  deriving Repr, DecidableEq

/-- The `ALERT_TYPES` choices of `StockAlert` (models.py lines 103-107). -/
inductive AlertType where
  | low_stock
  | near_expiry
  | expired
  deriving Repr, DecidableEq

/-- Row of `StockAlert` (models.py lines 101-118). -/
structure StockAlert where
  id : Nat
  medicine_name : String
  alert_type : AlertType
  message : String
  is_acknowledged : Bool
  created_at : Int
  acknowledged_by : Option String
  acknowledged_at : Option Int
  deriving Repr, DecidableEq

/-- The relational store backing the application: the three tables the
ledger/alert logic touches, plus the primary-key counters. -/
structure DB where
  inventory : List MedicineInventory
  history : List DispenseHistory
  alerts : List StockAlert
  nextId : Nat
  nextAlertId : Nat
  deriving Repr, DecidableEq

/-- The filter `medicine_name=..., batch_no=...` used by `balance` and
`quick_dispense`. -/
def matchKey (med batch : String) (e : MedicineInventory) : Bool :=
  e.medicine_name == med && e.batch_no == batch

/-- `aggregate(total=models.Sum('quantity_in'))['total'] or 0` over the rows
matching the key (models.py lines 58-61). -/
def total_in (db : DB) (med batch : String) : Nat :=
  ((db.inventory.filter (matchKey med batch)).map
    (fun e => e.quantity_in)).sum

/-- `aggregate(total=models.Sum('quantity_out'))['total'] or 0` over the rows
matching the key (models.py lines 62-65). -/
def total_out (db : DB) (med batch : String) : Nat :=
  ((db.inventory.filter (matchKey med batch)).map
    (fun e => e.quantity_out)).sum

/-- `MedicineInventory.balance` (models.py lines 56-66): recomputed from the
current table contents on every call; an integer that may be negative. -/
def balance (db : DB) (med batch : String) : Int :=
  (total_in db med batch : Int) - (total_out db med batch : Int)

/-- `MedicineInventory.is_expired` (models.py lines 68-71). -/
def is_expired (e : MedicineInventory) (today : Int) : Bool :=
  e.expiry_date ≤ today

/-- `MedicineInventory.days_to_expiry` (models.py lines 73-76). -/
def days_to_expiry (e : MedicineInventory) (today : Int) : Int :=
  e.expiry_date - today

/-- `MedicineInventory.is_low_stock` (models.py lines 78-81). -/
def is_low_stock (db : DB) (e : MedicineInventory) : Bool :=
  balance db e.medicine_name e.batch_no < (e.minimum_stock_level : Int)

/-- The cleaned data of `QuickDispenseForm` (forms.py lines 169-207). -/
structure DispenseRequest where
  medicine_name : String
  batch_no : String
  quantity : Nat
  patient_name : String
  prescribing_doctor : String
  deriving Repr, DecidableEq

/-- `QuickDispenseForm.is_valid()`: all three `CharField`s are required
(non-blank), `quantity` has `min_value=1`, `prescribing_doctor` is
optional (forms.py lines 169-207). -/
def quickDispenseForm_is_valid (r : DispenseRequest) : Bool :=
  !(r.medicine_name == "") && !(r.batch_no == "") &&
    decide (1 ≤ r.quantity) && !(r.patient_name == "")

/-- `queryset.first()` under the model's default ordering
`ordering = ['-date']` (models.py line 43): the row with the greatest
`date` comes first; among equal dates the earliest-stored row is kept. -/
def firstByOrdering : List MedicineInventory → Option MedicineInventory
  | [] => none
  | e :: es =>
    match firstByOrdering es with
    | none => some e
    | some b => if b.date > e.date then some b else some e

/-- Outcome of a `quick_dispense` POST. -/
inductive DispenseOutcome where
  | invalidForm
  | notFound
  | insufficientStock
  | success
  deriving Repr, DecidableEq

/-- The dispense ledger entry `MedicineInventory.objects.create(...)` builds
on a successful quick dispense (views.py lines 275-286): `quantity_in=0`,
`quantity_out` the requested quantity, `dosage_form` and `expiry_date`
copied from the sourced `inventory_item`; the unset model fields take
their defaults. -/
def dispenseEntry (db : DB) (today : Int) (user : String)
    (r : DispenseRequest) (inventory_item : MedicineInventory) :
    MedicineInventory :=
  { id := db.nextId
    date := today
    medicine_name := r.medicine_name
    dosage_form := inventory_item.dosage_form
    batch_no := r.batch_no
    expiry_date := inventory_item.expiry_date
    quantity_in := 0
    quantity_out := r.quantity
    storage_condition := ""
    dispensed_to := r.patient_name
    notes := ""
    created_by := some user
    generic_name := ""
    manufacturer := ""
    strength := ""
    unit_cost := none
    supplier_name := ""
    prescribing_doctor := r.prescribing_doctor
    minimum_stock_level := 10 }

/-- The `DispenseHistory.objects.create(...)` row of a successful quick
dispense (views.py lines 289-297).  No `inventory_record` is passed, so
the audit row carries a null reference. -/
def dispenseHistoryRow (now : Int) (user : String) (r : DispenseRequest)
    (inventory_item : MedicineInventory) : DispenseHistory :=
  { date := now
    medicine_name := r.medicine_name
    dosage_form := inventory_item.dosage_form
    batch_no := r.batch_no
    dispensed_to := r.patient_name
    quantity_out := r.quantity
    inventory_record := none
    patient_name := ""
    patient_id := ""
    prescribing_doctor := r.prescribing_doctor
    prescription_number := ""
    dispensed_by := some user
    notes := "" }

/-- The `quick_dispense` view's POST handler (views.py lines 253-307).
`today` is `timezone.now().date()` and `now` is `timezone.now()`;
`user` is `request.user`. -/
def quick_dispense (db : DB) (today now : Int) (user : String)
    (r : DispenseRequest) : DB × DispenseOutcome :=
  if quickDispenseForm_is_valid r then
    match firstByOrdering (db.inventory.filter
        (matchKey r.medicine_name r.batch_no)) with
    | none => (db, .notFound)
    | some inventory_item =>
      if balance db r.medicine_name r.batch_no < (r.quantity : Int) then
        (db, .insufficientStock)
      else
        ({ db with
            inventory := db.inventory ++
              [dispenseEntry db today user r inventory_item]
            history := db.history ++
              [dispenseHistoryRow now user r inventory_item]
            nextId := db.nextId + 1 }, .success)
  else (db, .invalidForm)

/-- The arguments of one `quick_dispense` POST: its clock values, the
requesting user and the submitted form. -/
structure DispenseCall where
  today : Int
  now : Int
  user : String
  req : DispenseRequest
  deriving Repr, DecidableEq

/-- `run_dispenses db calls` plays a sequence of `quick_dispense` POSTs
against the store, keeping each resulting state. -/
def run_dispenses (db : DB) (calls : List DispenseCall) : DB :=
  calls.foldl (fun d c => (quick_dispense d c.today c.now c.user c.req).1) db

/-- Specification-side restatement of the balance contract (spec §4.1):
`sum(quantity received) - sum(quantity dispensed)` over all rows sharing
the key, taken as one signed sum. -/
def balance_spec (db : DB) (med batch : String) : Int :=
  ((db.inventory.filter (matchKey med batch)).map
    (fun e => (e.quantity_in : Int) - (e.quantity_out : Int))).sum

/-- The validation errors `MedicineInventoryForm` can raise
(forms.py lines 121-167). -/
inductive FormError where
  | nonFutureExpiry
  | zeroZero
  | bothPositive
  | missingRecipient
  deriving Repr, DecidableEq

/-- `MedicineInventoryForm` validation: the field-level `clean_expiry_date`
(forms.py lines 121-130) followed by the cross-field `clean`
(forms.py lines 148-167).  The entry's `id` and `created_by` are not form
fields and are ignored. -/
def medicineInventoryForm_clean (today : Int) (e : MedicineInventory) :
    Except FormError Unit :=
  if e.expiry_date ≤ today then .error .nonFutureExpiry
  else if e.quantity_in == 0 && e.quantity_out == 0 then .error .zeroZero
  else if decide (0 < e.quantity_in) && decide (0 < e.quantity_out) then
    .error .bothPositive
  else if decide (0 < e.quantity_out) && e.dispensed_to == "" then
    .error .missingRecipient
  else .ok ()

/-- Running state of the alert loops: the `StockAlert` table, its primary-key
counter, and the `alerts_created` counter of `check_alerts`. -/
structure AlertState where
  alerts : List StockAlert
  nextAlertId : Nat
  created : Nat
  deriving Repr, DecidableEq

/-- `StockAlert.objects.get_or_create(medicine_name=..., alert_type=...,
defaults={'message': ...})` (check_alerts.py lines 42-48 and the like):
looks the row up by the (medicine name, alert type) pair only; creates it
with the default message when absent, bumping `created`. -/
def get_or_create_alert (now : Int) (s : AlertState) (med : String)
    (ty : AlertType) (msg : String) : AlertState :=
  match s.alerts.find?
      (fun a => a.medicine_name == med && decide (a.alert_type = ty)) with
  | some _ => s
  | none =>
    { alerts := s.alerts ++
        [{ id := s.nextAlertId
           medicine_name := med
           alert_type := ty
           message := msg
           is_acknowledged := false
           created_at := now
           acknowledged_by := none
           acknowledged_at := none }]
      nextAlertId := s.nextAlertId + 1
      created := s.created + 1 }

/-- Message of an EXPIRED alert (check_alerts.py line 46). -/
def expiredMessage (item : MedicineInventory) : String :=
  item.medicine_name ++ " (Batch: " ++ item.batch_no ++
    ") has expired on " ++ toString item.expiry_date

/-- Message of a NEAR_EXPIRY alert (check_alerts.py line 65). -/
def nearExpiryMessage (item : MedicineInventory) (today : Int) : String :=
  item.medicine_name ++ " (Batch: " ++ item.batch_no ++ ") expires in " ++
    toString (days_to_expiry item today) ++ " days"

/-- Message of a LOW_STOCK alert from `check_alerts` (line 79). -/
def lowStockMessage (db : DB) (item : MedicineInventory) : String :=
  "Low stock alert: " ++ item.medicine_name ++ " (Current balance: " ++
    toString (balance db item.medicine_name item.batch_no) ++ ")"

/-- A loop of `get_or_create` calls of one alert kind `k` over the items of
`l`, keyed by `m item` with default message `g item` — the shape all three
loops of `check_alerts` share. -/
def gocFold (now : Int) (m : MedicineInventory → String) (k : AlertType)
    (g : MedicineInventory → String) (l : List MedicineInventory)
    (s : AlertState) : AlertState :=
  l.foldl (fun s item => get_or_create_alert now s (m item) k (g item)) s

/-- The expired-medicines loop of `check_alerts` (lines 38-51): iterate the
rows with `expiry_date__lte=today` and get-or-create an EXPIRED alert per
medicine name. -/
def scanExpired (db : DB) (today now : Int) (s : AlertState) : AlertState :=
  gocFold now (fun item => item.medicine_name) .expired expiredMessage
    (db.inventory.filter (fun e => decide (e.expiry_date ≤ today))) s

/-- The near-expiry loop of `check_alerts` (lines 53-70): iterate the rows
with `today < expiry_date ≤ today + EXPIRY_ALERT_DAYS`. -/
def scanNearExpiry (db : DB) (today now : Int) (threshold : Nat)
    (s : AlertState) : AlertState :=
  gocFold now (fun item => item.medicine_name) .near_expiry
    (fun item => nearExpiryMessage item today)
    (db.inventory.filter (fun e => decide (today < e.expiry_date) &&
      decide (e.expiry_date ≤ today + (threshold : Int)))) s

/-- The low-stock loop of `check_alerts` (lines 72-84): iterate every row
and get-or-create a LOW_STOCK alert when `is_low_stock` holds. -/
def scanLowStock (db : DB) (now : Int) (s : AlertState) : AlertState :=
  db.inventory.foldl
    (fun s item =>
      if is_low_stock db item then
        get_or_create_alert now s item.medicine_name .low_stock
          (lowStockMessage db item)
      else s) s

/-- The alert-creation part of `check_alerts` `Command.handle`
(check_alerts.py lines 32-84): the expired loop, the near-expiry loop with
threshold `EXPIRY_ALERT_DAYS` days, and the low-stock loop over the whole
table.  Returns the updated store and `alerts_created`. -/
def scan_alerts (db : DB) (today now : Int) (threshold : Nat) : DB × Nat :=
  let s3 := scanLowStock db now (scanNearExpiry db today now threshold
    (scanExpired db today now ⟨db.alerts, db.nextAlertId, 0⟩))
  ({ db with alerts := s3.alerts, nextAlertId := s3.nextAlertId }, s3.created)

/-- The `--clean-old-alerts` branch of `check_alerts` `Command.handle`
(check_alerts.py lines 91-98): delete every alert with
`is_acknowledged=True` and `acknowledged_at ≤ now - timedelta(days=30)`;
returns the remaining store and the deleted count. -/
def purge_old_alerts (db : DB) (now : Int) : DB × Nat :=
  let isOld := fun (a : StockAlert) =>
    a.is_acknowledged &&
      match a.acknowledged_at with
      | some t => decide (t ≤ now - 30 * 86400)
      | none => false
  let old := db.alerts.filter isOld
  ({ db with alerts := db.alerts.filter (fun a => !(isOld a)) }, old.length)

/-- The row update the `alert.save()` of the acknowledge branch performs:
on the alert with the posted id, set `is_acknowledged`,
`acknowledged_by` and `acknowledged_at` (views.py lines 463-467). -/
def ackUpdate (alert_id : Nat) (user : String) (now : Int)
    (a : StockAlert) : StockAlert :=
  if a.id == alert_id then
    { a with
        is_acknowledged := true
        acknowledged_by := some user
        acknowledged_at := some now }
  else a

/-- The acknowledge branch of the `stock_alerts` view (views.py lines
458-470): `get_object_or_404(StockAlert, id=alert_id)` then set
`is_acknowledged`, `acknowledged_by`, `acknowledged_at` and save.  Returns
`false` (a 404, no change) when no alert has that id; the lookup does not
filter on the acknowledged flag, so a second acknowledgment re-saves. -/
def acknowledge (db : DB) (alert_id : Nat) (user : String) (now : Int) :
    DB × Bool :=
  if (db.alerts.find? (fun a => a.id == alert_id)).isSome then
    ({ db with alerts := db.alerts.map (ackUpdate alert_id user now) }, true)
  else (db, false)

/-- The `add_inventory` view's POST handler (views.py lines 95-144): if the
form validates, save the entry with `created_by = request.user`; when it
is a dispense, also create a `DispenseHistory` row that references the new
entry; finally `get_or_create` a LOW_STOCK alert if the entry is now low.
Returns `none` (re-render) on validation failure. -/
def add_inventory (db : DB) (today now : Int) (user : String)
    (e : MedicineInventory) : DB × Bool :=
  match medicineInventoryForm_clean today e with
  | .error _ => (db, false)
  | .ok _ =>
    let inventory : MedicineInventory :=
      { e with id := db.nextId, created_by := some user }
    let newHistory : List DispenseHistory :=
      if decide (0 < inventory.quantity_out) then
        [{ date := now
           medicine_name := inventory.medicine_name
           dosage_form := inventory.dosage_form
           batch_no := inventory.batch_no
           dispensed_to := inventory.dispensed_to
           quantity_out := inventory.quantity_out
           inventory_record := some inventory.id
           patient_name := ""
           patient_id := ""
           prescribing_doctor := ""
           prescription_number := ""
           dispensed_by := some user
           notes := "" }]
      else []
    let db2 : DB := { db with
      inventory := db.inventory ++ [inventory]
      history := db.history ++ newHistory
      nextId := db.nextId + 1 }
    let db3 : DB :=
      if is_low_stock db2 inventory then
        let s := get_or_create_alert now ⟨db2.alerts, db2.nextAlertId, 0⟩
          inventory.medicine_name .low_stock
          ("Stock is running low for " ++ inventory.medicine_name)
        { db2 with alerts := s.alerts, nextAlertId := s.nextAlertId }
      else db2
    (db3, true)

/-- One parsed CSV row as `import_csv` reads it (import_csv.py lines
59-156).  The date-format and number-format fallback heuristics and the
per-field `.strip()` calls are the excluded parsing layer; the fields here
are the stripped values that layer produced. -/
structure CsvRow where
  date : Int
  medicine_name : String
  dosage_form : String
  batch_no : String
  expiry_date : Int
  quantity_in : Nat
  quantity_out : Nat
  generic_name : String
  manufacturer : String
  strength : String
  unit_cost : Int
  supplier_name : String
  storage_condition : String
  prescribing_doctor : String
  dispensed_to : String
  notes : String
  deriving Repr, DecidableEq

/-- Row construction in `import_csv` `Command.handle` (import_csv.py lines
62-156): a row whose stripped medicine name is empty is skipped; otherwise
a `MedicineInventory` instance is built with the `or`-defaults for dosage
form and batch number.  No form or model validation runs on it. -/
def import_row (row_num : Nat) (user : String) (row : CsvRow) :
    Option MedicineInventory :=
  if row.medicine_name == "" then none
  else some
    { id := 0
      date := row.date
      medicine_name := row.medicine_name
      dosage_form :=
        if row.dosage_form == "" then "Tablet" else row.dosage_form
      batch_no :=
        if row.batch_no == "" then "BATCH_" ++ toString row_num
        else row.batch_no
      expiry_date := row.expiry_date
      quantity_in := row.quantity_in
      quantity_out := row.quantity_out
      storage_condition := row.storage_condition
      dispensed_to := row.dispensed_to
      notes := row.notes
      created_by := some user
      generic_name := row.generic_name
      manufacturer := row.manufacturer
      strength := row.strength
      unit_cost := some row.unit_cost
      supplier_name := row.supplier_name
      prescribing_doctor := row.prescribing_doctor
      minimum_stock_level := 10 }

/-- The persistence step of `import_csv` `Command.handle` (import_csv.py
lines 43-67 and 188-200): the surviving rows are appended to the table by
`bulk_create`, which assigns sequential primary keys and bypasses both
`MedicineInventoryForm` and `Model.clean` entirely.  The `Supplier` side
table is not part of the ledger logic and is not modelled. -/
def import_csv (db : DB) (user : String) (rows : List CsvRow) : DB :=
  let medicines_to_create : List MedicineInventory :=
    (List.enumFrom 2 rows).filterMap fun p => import_row p.1 user p.2
  let numbered := List.enumFrom db.nextId medicines_to_create
  { db with
    inventory := db.inventory ++
      numbered.map (fun p => { p.2 with id := p.1 })
    nextId := db.nextId + medicines_to_create.length }

/-- Whether an alert row for the (medicine name, alert kind) key exists:
the lookup `get_or_create` performs. -/
def hasAlert (alerts : List StockAlert) (med : String) (ty : AlertType) :
    Bool :=
  (alerts.find?
    (fun a => a.medicine_name == med && decide (a.alert_type = ty))).isSome

/-- The C5 invariant: no two alert rows share a (medicine name, alert kind)
key. -/
def alertKeyUnique (alerts : List StockAlert) : Prop :=
  List.Pairwise
    (fun a b => ¬(a.medicine_name = b.medicine_name ∧
      a.alert_type = b.alert_type)) alerts

/-- The store of a fresh deployment: every table empty. -/
def initDB : DB := ⟨[], [], [], 0, 0⟩

/-- The states reachable from a fresh store through the modelled
operations: dispensing, manual adds, CSV imports, alert scans,
acknowledgments and retention sweeps. -/
inductive Reachable : DB → Prop where
  | init : Reachable initDB
  | dispense (db : DB) (today now : Int) (user : String)
      (r : DispenseRequest) : Reachable db →
      Reachable (quick_dispense db today now user r).1
  | add (db : DB) (today now : Int) (user : String)
      (e : MedicineInventory) : Reachable db →
      Reachable (add_inventory db today now user e).1
  | imp (db : DB) (user : String) (rows : List CsvRow) : Reachable db →
      Reachable (import_csv db user rows)
  | scan (db : DB) (today now : Int) (threshold : Nat) : Reachable db →
      Reachable (scan_alerts db today now threshold).1
  | ack (db : DB) (alert_id : Nat) (user : String) (now : Int) :
      Reachable db → Reachable (acknowledge db alert_id user now).1
  | purge (db : DB) (now : Int) : Reachable db →
      Reachable (purge_old_alerts db now).1

/-! ## Concrete fixtures used by witnesses and counterexamples -/

/-- A receipt of 100 units of Amoxicillin, batch B1 (spec §8 scenario). -/
def entryA : MedicineInventory :=
  { id := 0, date := 10, medicine_name := "Amoxicillin",
    dosage_form := "tablet", batch_no := "B1", expiry_date := 100,
    quantity_in := 100, quantity_out := 0, storage_condition := "",
    dispensed_to := "", notes := "", created_by := some "staff",
    generic_name := "", manufacturer := "", strength := "", unit_cost := none,
    supplier_name := "", prescribing_doctor := "", minimum_stock_level := 10 }

/-- A store holding only `entryA`. -/
def dbA : DB := ⟨[entryA], [], [], 1, 0⟩

/-- The spec §8 dispense request: 95 units of Amoxicillin B1 to J.Doe. -/
def reqA : DispenseRequest :=
  { medicine_name := "Amoxicillin", batch_no := "B1", quantity := 95,
    patient_name := "J.Doe", prescribing_doctor := "" }

/-- An older entry of the Amoxicillin/B1 key with a different expiry date. -/
def entryOld : MedicineInventory :=
  { entryA with id := 1, date := 5, expiry_date := 50, quantity_in := 30 }

/-- A store holding two entries of the same key with distinct movement
dates: `entryOld` (date 5, expiry 50) and `entryA` (date 10, expiry 100). -/
def dbTwo : DB := ⟨[entryOld, entryA], [], [], 2, 0⟩

/-- An unacknowledged LOW_STOCK alert. -/
def alertA : StockAlert :=
  { id := 0, medicine_name := "Amoxicillin", alert_type := .low_stock,
    message := "Stock is running low for Amoxicillin",
    is_acknowledged := false, created_at := 1000,
    acknowledged_by := none, acknowledged_at := none }

/-- A store holding only `alertA`. -/
def dbAlert : DB := ⟨[], [], [alertA], 0, 1⟩

/-- A CSV row violating every cross-field rule: both quantities zero and an
expiry date in the past. -/
def badRow : CsvRow :=
  { date := 0, medicine_name := "Paracetamol", dosage_form := "",
    batch_no := "", expiry_date := -5, quantity_in := 0, quantity_out := 0,
    generic_name := "", manufacturer := "", strength := "", unit_cost := 0,
    supplier_name := "", storage_condition := "", prescribing_doctor := "",
    dispensed_to := "", notes := "" }

/-- An entry with both quantities zero, as submitted to the manual form. -/
def zeroZeroEntry : MedicineInventory :=
  { entryA with quantity_in := 0, quantity_out := 0 }

/-- `timedelta(days=30)` on a datetime, in seconds. -/
def thirtyDays : Int := 30 * 86400

/-- An alert acknowledged 31 days before datetime `0`. -/
def ack31 : StockAlert :=
  { alertA with
    id := 1
    is_acknowledged := true
    acknowledged_by := some "staff"
    acknowledged_at := some (-(31 * 86400)) }

/-- An alert acknowledged 29 days before datetime `0`. -/
def ack29 : StockAlert :=
  { alertA with
    id := 2
    is_acknowledged := true
    acknowledged_by := some "staff"
    acknowledged_at := some (-(29 * 86400)) }

/-- An alert never acknowledged, created long ago. -/
def unackOld : StockAlert :=
  { alertA with id := 3, created_at := -(400 * 86400) }

/-- A store holding the three retention-sweep fixtures. -/
def dbPurge : DB := ⟨[], [], [ack31, ack29, unackOld], 0, 4⟩

/-! ## Basic lemmas about `balance` -/

theorem sum_in_sub_sum_out (l : List MedicineInventory) :
    ((((l.map (fun e => e.quantity_in)).sum : Nat) : Int)) -
      (((l.map (fun e => e.quantity_out)).sum : Nat) : Int) =
      (l.map (fun e => (e.quantity_in : Int) - (e.quantity_out : Int))).sum := by
  induction l with
  | nil => simp
  | cons a t ih =>
    simp only [List.map_cons, List.sum_cons, Nat.cast_add]
    omega

theorem balance_congr (db db' : DB) (h : db'.inventory = db.inventory)
    (med batch : String) : balance db' med batch = balance db med batch := by
  unfold balance total_in total_out
  rw [h]

theorem balance_append (db db' : DB) (e : MedicineInventory)
    (h : db'.inventory = db.inventory ++ [e]) (med batch : String) :
    balance db' med batch = balance db med batch +
      (if matchKey med batch e then
        (e.quantity_in : Int) - (e.quantity_out : Int) else 0) := by
  unfold balance total_in total_out
  rw [h, List.filter_append]
  by_cases hm : matchKey med batch e
  · simp only [List.filter_cons, List.filter_nil, hm, if_true,
      List.map_append, List.sum_append, List.map_cons, List.map_nil,
      List.sum_cons, List.sum_nil, Nat.cast_add, if_pos]
    omega
  · simp only [List.filter_cons, List.filter_nil, hm,
      Bool.false_eq_true, if_false, List.append_nil]
    simp [hm]

/-- C1: `balance(medicine_name, batch_no)` is the sum of `quantity_in` minus
the sum of `quantity_out` over the ledger entries sharing that key,
recomputed from the current table on each call (it is a pure function of
the store), and it is total, returning 0 for a key with no entries. -/
theorem balance_matches_spec (db : DB) (med batch : String) :
    balance db med batch = balance_spec db med batch ∧
    (db.inventory.filter (matchKey med batch) = [] →
      balance db med batch = 0) := by
  constructor
  · unfold balance total_in total_out balance_spec
    exact sum_in_sub_sum_out _
  · intro h
    unfold balance total_in total_out
    rw [h]
    simp

/-- Witness for `balance_matches_spec` at a store that has no entry for the
queried key. -/
theorem balance_matches_spec_witness :
    balance ⟨[], [], [], 0, 0⟩ "Amoxicillin" "B1" = 0 :=
  (balance_matches_spec ⟨[], [], [], 0, 0⟩ "Amoxicillin" "B1").2 (by rfl)

/-! ## Characterization of the `quick_dispense` branches -/

theorem quick_dispense_invalid_eq (db : DB) (today now : Int) (user : String)
    (r : DispenseRequest) (hv : quickDispenseForm_is_valid r = false) :
    quick_dispense db today now user r = (db, .invalidForm) := by
  unfold quick_dispense
  rw [hv]
  simp

theorem quick_dispense_notFound_eq (db : DB) (today now : Int) (user : String)
    (r : DispenseRequest) (hv : quickDispenseForm_is_valid r = true)
    (hf : firstByOrdering (db.inventory.filter
      (matchKey r.medicine_name r.batch_no)) = none) :
    quick_dispense db today now user r = (db, .notFound) := by
  unfold quick_dispense
  rw [hv, hf]
  simp

theorem quick_dispense_insufficient_eq (db : DB) (today now : Int)
    (user : String) (r : DispenseRequest) (item : MedicineInventory)
    (hv : quickDispenseForm_is_valid r = true)
    (hf : firstByOrdering (db.inventory.filter
      (matchKey r.medicine_name r.batch_no)) = some item)
    (hb : balance db r.medicine_name r.batch_no < (r.quantity : Int)) :
    quick_dispense db today now user r = (db, .insufficientStock) := by
  unfold quick_dispense
  rw [hv, hf]
  simp [hb]

theorem quick_dispense_success_eq (db : DB) (today now : Int)
    (user : String) (r : DispenseRequest) (item : MedicineInventory)
    (hv : quickDispenseForm_is_valid r = true)
    (hf : firstByOrdering (db.inventory.filter
      (matchKey r.medicine_name r.batch_no)) = some item)
    (hb : ¬ balance db r.medicine_name r.batch_no < (r.quantity : Int)) :
    quick_dispense db today now user r =
      ({ db with
          inventory := db.inventory ++ [dispenseEntry db today user r item]
          history := db.history ++ [dispenseHistoryRow now user r item]
          nextId := db.nextId + 1 }, .success) := by
  unfold quick_dispense
  rw [hv, hf]
  simp [hb]

/-! ## C2: the balance stays non-negative under dispenses -/

theorem quick_dispense_success_requires (db : DB) (today now : Int)
    (user : String) (r : DispenseRequest)
    (h : (quick_dispense db today now user r).2 = .success) :
    (r.quantity : Int) ≤ balance db r.medicine_name r.batch_no := by
  unfold quick_dispense at h
  by_cases hv : quickDispenseForm_is_valid r
  · rw [hv] at h
    simp only [if_true] at h
    cases hf : firstByOrdering (db.inventory.filter
        (matchKey r.medicine_name r.batch_no)) with
    | none => rw [hf] at h; simp at h
    | some item =>
      rw [hf] at h
      by_cases hb : balance db r.medicine_name r.batch_no < (r.quantity : Int)
      · simp [hb] at h
      · omega
  · simp [hv] at h

theorem quick_dispense_step_nonneg (db : DB) (today now : Int)
    (user : String) (r : DispenseRequest) (med batch : String)
    (h : 0 ≤ balance db med batch) :
    0 ≤ balance (quick_dispense db today now user r).1 med batch := by
  by_cases hv : quickDispenseForm_is_valid r
  · cases hf : firstByOrdering (db.inventory.filter
        (matchKey r.medicine_name r.batch_no)) with
    | none =>
      rw [quick_dispense_notFound_eq db today now user r hv hf]
      exact h
    | some item =>
      by_cases hb : balance db r.medicine_name r.batch_no < (r.quantity : Int)
      · rw [quick_dispense_insufficient_eq db today now user r item hv hf hb]
        exact h
      · rw [quick_dispense_success_eq db today now user r item hv hf hb]
        have hba := balance_append db
          ({ db with
              inventory := db.inventory ++ [dispenseEntry db today user r item]
              history := db.history ++ [dispenseHistoryRow now user r item]
              nextId := db.nextId + 1 })
          (dispenseEntry db today user r item) rfl med batch
        simp only at hba ⊢
        rw [hba]
        by_cases hk : matchKey med batch (dispenseEntry db today user r item)
        · have hk' := hk
          simp only [matchKey, dispenseEntry, Bool.and_eq_true,
            beq_iff_eq] at hk'
        /- the new entry's key is the request's key, so the dispensed key is
           (med, batch) itself and its balance drops by the checked amount -/
          obtain ⟨h1, h2⟩ := hk'
          rw [if_pos hk]
          simp only [dispenseEntry]
          rw [h1, h2] at hb
          simp only [Nat.cast_zero]
          omega
        · rw [if_neg hk]
          omega
  · rw [quick_dispense_invalid_eq db today now user r (by simpa using hv)]
    exact h

/-- C2: a dispense succeeds only when the requested quantity is at most the
balance of its (medicine, batch) key at check time, and consequently any
sequence of `quick_dispense` calls keeps an initially non-negative balance
of every key non-negative. -/
theorem dispense_preserves_nonneg_balance (db : DB) (today now : Int)
    (user : String) (r : DispenseRequest) (calls : List DispenseCall)
    (med batch : String) :
    ((quick_dispense db today now user r).2 = .success →
      (r.quantity : Int) ≤ balance db r.medicine_name r.batch_no) ∧
    (0 ≤ balance db med batch →
      0 ≤ balance (run_dispenses db calls) med batch) := by
  constructor
  · exact quick_dispense_success_requires db today now user r
  · intro h
    induction calls generalizing db with
    | nil => simpa [run_dispenses] using h
    | cons c t ih =>
      have hstep := quick_dispense_step_nonneg db c.today c.now c.user c.req
        med batch h
      have : run_dispenses db (c :: t) =
          run_dispenses (quick_dispense db c.today c.now c.user c.req).1 t :=
        rfl
      rw [this]
      exact ih _ hstep

/-- Witness for `dispense_preserves_nonneg_balance`: the spec §8 scenario,
dispensing 95 of 100 units, leaves the Amoxicillin/B1 balance at 5 ≥ 0. -/
theorem dispense_preserves_nonneg_balance_witness :
    (95 : Int) ≤ balance dbA "Amoxicillin" "B1" ∧
    0 ≤ balance (run_dispenses dbA [⟨11, 1100, "alice", reqA⟩])
      "Amoxicillin" "B1" :=
  ⟨(dispense_preserves_nonneg_balance dbA 11 1100 "alice" reqA
      [⟨11, 1100, "alice", reqA⟩] "Amoxicillin" "B1").1 (by decide),
   (dispense_preserves_nonneg_balance dbA 11 1100 "alice" reqA
      [⟨11, 1100, "alice", reqA⟩] "Amoxicillin" "B1").2 (by decide)⟩

/-! ## C3: ordered precondition checks that leave the store untouched -/

theorem firstByOrdering_eq_none (l : List MedicineInventory) :
    firstByOrdering l = none ↔ l = [] := by
  cases l with
  | nil => simp [firstByOrdering]
  | cons e es =>
    simp only [firstByOrdering]
    cases firstByOrdering es with
    | none => simp
    | some b =>
      constructor
      · intro h
        by_cases hd : b.date > e.date <;> simp [hd] at h
      · intro h
        exact absurd h (by simp)

/-- C3: with a validated form, `quick_dispense` first fails with NOT_FOUND
when no ledger entry of the key exists, and otherwise fails with
INSUFFICIENT_STOCK when the balance is below the requested quantity; in
both cases the returned store is the input store, so no ledger entry and
no dispense-history row is created and every balance is unchanged. -/
theorem quick_dispense_fail_fast (db : DB) (today now : Int) (user : String)
    (r : DispenseRequest) (hv : quickDispenseForm_is_valid r = true) :
    (db.inventory.filter (matchKey r.medicine_name r.batch_no) = [] →
      quick_dispense db today now user r = (db, .notFound)) ∧
    (∀ item,
      firstByOrdering (db.inventory.filter
        (matchKey r.medicine_name r.batch_no)) = some item →
      balance db r.medicine_name r.batch_no < (r.quantity : Int) →
      quick_dispense db today now user r = (db, .insufficientStock)) := by
  constructor
  · intro h
    exact quick_dispense_notFound_eq db today now user r hv
      ((firstByOrdering_eq_none _).2 h)
  · intro item hf hb
    exact quick_dispense_insufficient_eq db today now user r item hv hf hb

/-- Witness for `quick_dispense_fail_fast`: an empty store yields NOT_FOUND,
and the spec §8 scenario — dispensing 10 when the balance is 5 — yields
INSUFFICIENT_STOCK and leaves the store unchanged. -/
theorem quick_dispense_fail_fast_witness :
    quick_dispense ⟨[], [], [], 0, 0⟩ 11 1100 "alice" reqA =
      (⟨[], [], [], 0, 0⟩, .notFound) ∧
    quick_dispense (run_dispenses dbA [⟨11, 1100, "alice", reqA⟩]) 12 1200
        "alice" { reqA with quantity := 10 } =
      (run_dispenses dbA [⟨11, 1100, "alice", reqA⟩], .insufficientStock) :=
  ⟨(quick_dispense_fail_fast ⟨[], [], [], 0, 0⟩ 11 1100 "alice" reqA
      (by decide)).1 (by decide),
   (quick_dispense_fail_fast (run_dispenses dbA [⟨11, 1100, "alice", reqA⟩])
      12 1200 "alice" { reqA with quantity := 10 } (by decide)).2
     (dispenseEntry dbA 11 "alice" reqA entryA) (by decide) (by decide)⟩

/-! ## C4: the two rows a successful dispense writes -/

/-- C4 counterexample: in the spec §8 scenario the dispense succeeds and a
new ledger entry (id 1) is appended, yet the sole dispense-history row
carries a null `inventory_record` — it does not reference the new ledger
entry as the claim states. -/
theorem quick_dispense_missing_audit_reference :
    (quick_dispense dbA 11 1100 "alice" reqA).2 = .success ∧
    ((quick_dispense dbA 11 1100 "alice" reqA).1.inventory.map
      (fun e => e.id)) = [0, 1] ∧
    ((quick_dispense dbA 11 1100 "alice" reqA).1.history.map
      (fun h => h.inventory_record)) = [none] := by
  refine ⟨by decide, by decide, by decide⟩

/-- C4 amended: on a successful dispense of quantity q the store gains, in
one step of this sequential model, exactly one ledger entry with
`quantity_out = q`, `quantity_in = 0` and the expiry date copied from the
sourced entry, together with one dispense-history row of the same
medicine, batch, recipient and quantity — but that history row is created
with `inventory_record = none`, referencing no ledger entry (and the two
inserts are not wrapped in a transaction in the source). -/
theorem quick_dispense_success_rows (db : DB) (today now : Int)
    (user : String) (r : DispenseRequest) (item : MedicineInventory)
    (hv : quickDispenseForm_is_valid r = true)
    (hf : firstByOrdering (db.inventory.filter
      (matchKey r.medicine_name r.batch_no)) = some item)
    (hb : ¬ balance db r.medicine_name r.batch_no < (r.quantity : Int)) :
    quick_dispense db today now user r =
      ({ db with
          inventory := db.inventory ++ [dispenseEntry db today user r item]
          history := db.history ++ [dispenseHistoryRow now user r item]
          nextId := db.nextId + 1 }, .success) ∧
    (dispenseEntry db today user r item).quantity_out = r.quantity ∧
    (dispenseEntry db today user r item).quantity_in = 0 ∧
    (dispenseEntry db today user r item).expiry_date = item.expiry_date ∧
    (dispenseHistoryRow now user r item).quantity_out = r.quantity ∧
    (dispenseHistoryRow now user r item).dispensed_to = r.patient_name ∧
    (dispenseHistoryRow now user r item).inventory_record = none := by
  exact ⟨quick_dispense_success_eq db today now user r item hv hf hb,
    rfl, rfl, rfl, rfl, rfl, rfl⟩

/-- Witness for `quick_dispense_success_rows` at the spec §8 scenario. -/
theorem quick_dispense_success_rows_witness :
    quick_dispense dbA 11 1100 "alice" reqA =
      ({ dbA with
          inventory := dbA.inventory ++ [dispenseEntry dbA 11 "alice" reqA entryA]
          history := dbA.history ++ [dispenseHistoryRow 1100 "alice" reqA entryA]
          nextId := dbA.nextId + 1 }, .success) ∧
    (dispenseEntry dbA 11 "alice" reqA entryA).quantity_out = reqA.quantity ∧
    (dispenseEntry dbA 11 "alice" reqA entryA).quantity_in = 0 ∧
    (dispenseEntry dbA 11 "alice" reqA entryA).expiry_date = entryA.expiry_date ∧
    (dispenseHistoryRow 1100 "alice" reqA entryA).quantity_out = reqA.quantity ∧
    (dispenseHistoryRow 1100 "alice" reqA entryA).dispensed_to = reqA.patient_name ∧
    (dispenseHistoryRow 1100 "alice" reqA entryA).inventory_record = none :=
  quick_dispense_success_rows dbA 11 1100 "alice" reqA entryA
    (by decide) (by decide) (by decide)

/-! ## C10: which entry the default ordering sources fields from -/

theorem firstByOrdering_mem (l : List MedicineInventory) :
    ∀ b, firstByOrdering l = some b → b ∈ l := by
  induction l with
  | nil => intro b h; simp [firstByOrdering] at h
  | cons e es ih =>
    intro b h
    simp only [firstByOrdering] at h
    cases hr : firstByOrdering es with
    | none =>
      simp only [hr, Option.some.injEq] at h
      subst h
      exact List.mem_cons_self e es
    | some c =>
      simp only [hr] at h
      by_cases hd : c.date > e.date
      · rw [if_pos hd] at h
        simp only [Option.some.injEq] at h
        subst h
        exact List.mem_cons_of_mem e (ih c hr)
      · rw [if_neg hd] at h
        simp only [Option.some.injEq] at h
        subst h
        exact List.mem_cons_self e es

theorem firstByOrdering_max (l : List MedicineInventory) :
    ∀ b, firstByOrdering l = some b → ∀ e ∈ l, e.date ≤ b.date := by
  induction l with
  | nil => intro b h; simp [firstByOrdering] at h
  | cons e es ih =>
    intro b h
    simp only [firstByOrdering] at h
    cases hr : firstByOrdering es with
    | none =>
      simp only [hr, Option.some.injEq] at h
      subst h
      have hes : es = [] := (firstByOrdering_eq_none es).1 hr
      subst hes
      simp
    | some c =>
      simp only [hr] at h
      have hc := ih c hr
      by_cases hd : c.date > e.date
      · rw [if_pos hd] at h
        simp only [Option.some.injEq] at h
        subst h
        intro x hx
        rcases List.mem_cons.1 hx with hx | hx
        · subst hx; omega
        · exact hc x hx
      · rw [if_neg hd] at h
        simp only [Option.some.injEq] at h
        subst h
        intro x hx
        rcases List.mem_cons.1 hx with hx | hx
        · subst hx; omega
        · have := hc x hx
          omega

theorem firstByOrdering_unique_max (l : List MedicineInventory)
    (b b2 : MedicineInventory) (h : firstByOrdering l = some b)
    (hmem : b2 ∈ l) (hmax : ∀ e ∈ l, e ≠ b2 → e.date < b2.date) :
    b = b2 := by
  by_contra hne
  have h1 := firstByOrdering_max l b h b2 hmem
  have h2 := hmax b (firstByOrdering_mem l b h) hne
  omega

/-- C10: `quick_dispense` sources the copied fields from the first entry of
the key under the store's default ordering `['-date']`: the sourced entry
is a matching entry of maximal movement date (the unique latest one when
dates are distinct), and the appended dispense entry carries its expiry
date and dosage form. -/
theorem dispense_sources_latest_entry (db : DB) (today now : Int)
    (user : String) (r : DispenseRequest) (item : MedicineInventory)
    (hf : firstByOrdering (db.inventory.filter
      (matchKey r.medicine_name r.batch_no)) = some item) :
    (item ∈ db.inventory.filter (matchKey r.medicine_name r.batch_no) ∧
     ∀ e ∈ db.inventory.filter (matchKey r.medicine_name r.batch_no),
       e.date ≤ item.date) ∧
    (∀ e2 ∈ db.inventory.filter (matchKey r.medicine_name r.batch_no),
      (∀ e ∈ db.inventory.filter (matchKey r.medicine_name r.batch_no),
        e ≠ e2 → e.date < e2.date) → item = e2) ∧
    (quickDispenseForm_is_valid r = true →
      ¬ balance db r.medicine_name r.batch_no < (r.quantity : Int) →
      (quick_dispense db today now user r).1.inventory.getLast? =
        some (dispenseEntry db today user r item) ∧
      (dispenseEntry db today user r item).expiry_date = item.expiry_date ∧
      (dispenseEntry db today user r item).dosage_form = item.dosage_form) := by
  refine ⟨⟨firstByOrdering_mem _ _ hf, firstByOrdering_max _ _ hf⟩,
    fun e2 hmem hmax => firstByOrdering_unique_max _ _ _ hf hmem hmax,
    fun hv hb => ⟨?_, rfl, rfl⟩⟩
  rw [quick_dispense_success_eq db today now user r item hv hf hb]
  simp

/-- Witness for `dispense_sources_latest_entry`: with two entries of the
Amoxicillin/B1 key dated 5 (expiry 50) and 10 (expiry 100), the dispense
entry copies expiry 100 from the later-dated entry. -/
theorem dispense_sources_latest_entry_witness :
    (entryA ∈ dbTwo.inventory.filter (matchKey reqA.medicine_name reqA.batch_no) ∧
     ∀ e ∈ dbTwo.inventory.filter (matchKey reqA.medicine_name reqA.batch_no),
       e.date ≤ entryA.date) ∧
    (∀ e2 ∈ dbTwo.inventory.filter (matchKey reqA.medicine_name reqA.batch_no),
      (∀ e ∈ dbTwo.inventory.filter (matchKey reqA.medicine_name reqA.batch_no),
        e ≠ e2 → e.date < e2.date) → entryA = e2) ∧
    (quickDispenseForm_is_valid reqA = true →
      ¬ balance dbTwo reqA.medicine_name reqA.batch_no < (reqA.quantity : Int) →
      (quick_dispense dbTwo 11 1100 "alice" reqA).1.inventory.getLast? =
        some (dispenseEntry dbTwo 11 "alice" reqA entryA) ∧
      (dispenseEntry dbTwo 11 "alice" reqA entryA).expiry_date =
        entryA.expiry_date ∧
      (dispenseEntry dbTwo 11 "alice" reqA entryA).dosage_form =
        entryA.dosage_form) :=
  dispense_sources_latest_entry dbTwo 11 1100 "alice" reqA entryA (by decide)

/-! ## C5: get-or-create alert lemmas -/

theorem goc_noop (now : Int) (s : AlertState) (med : String)
    (ty : AlertType) (msg : String)
    (h : hasAlert s.alerts med ty = true) :
    get_or_create_alert now s med ty msg = s := by
  unfold hasAlert at h
  unfold get_or_create_alert
  cases hf : s.alerts.find?
      (fun a => a.medicine_name == med && decide (a.alert_type = ty)) with
  | none => rw [hf] at h; simp at h
  | some a => rfl

theorem hasAlert_goc_self (now : Int) (s : AlertState) (med : String)
    (ty : AlertType) (msg : String) :
    hasAlert (get_or_create_alert now s med ty msg).alerts med ty = true := by
  unfold get_or_create_alert
  cases hf : s.alerts.find?
      (fun a => a.medicine_name == med && decide (a.alert_type = ty)) with
  | none =>
    unfold hasAlert
    rw [List.find?_append, hf]
    simp
  | some a =>
    unfold hasAlert
    rw [hf]
    rfl

theorem hasAlert_goc_mono (now : Int) (s : AlertState)
    (med' : String) (ty' : AlertType) (msg : String) (med : String)
    (ty : AlertType) (h : hasAlert s.alerts med ty = true) :
    hasAlert (get_or_create_alert now s med' ty' msg).alerts med ty = true := by
  unfold get_or_create_alert
  cases hf : s.alerts.find?
      (fun a => a.medicine_name == med' && decide (a.alert_type = ty')) with
  | none =>
    unfold hasAlert at h ⊢
    rw [List.find?_append]
    cases hx : s.alerts.find?
        (fun a => a.medicine_name == med && decide (a.alert_type = ty)) with
    | none => rw [hx] at h; simp at h
    | some a => simp
  | some a => exact h

theorem goc_unique (now : Int) (s : AlertState) (med : String)
    (ty : AlertType) (msg : String) (h : alertKeyUnique s.alerts) :
    alertKeyUnique (get_or_create_alert now s med ty msg).alerts := by
  unfold get_or_create_alert
  cases hf : s.alerts.find?
      (fun a => a.medicine_name == med && decide (a.alert_type = ty)) with
  | none =>
    unfold alertKeyUnique at h ⊢
    rw [List.pairwise_append]
    refine ⟨h, List.pairwise_singleton _ _, ?_⟩
    intro a ha b hb
    simp only [List.mem_singleton] at hb
    subst hb
    have hnone := List.find?_eq_none.1 hf a ha
    simp only [Bool.and_eq_true, beq_iff_eq, decide_eq_true_eq,
      not_and] at hnone
    intro hk
    exact hnone hk.1 hk.2
  | some a => exact h

theorem gocFold_mono (now : Int) (m : MedicineInventory → String)
    (k : AlertType) (g : MedicineInventory → String)
    (l : List MedicineInventory) (med : String) (ty : AlertType) :
    ∀ s : AlertState, hasAlert s.alerts med ty = true →
      hasAlert (gocFold now m k g l s).alerts med ty = true := by
  induction l with
  | nil => intro s h; exact h
  | cons item t ih =>
    intro s h
    exact ih _ (hasAlert_goc_mono now s (m item) k (g item) med ty h)

theorem gocFold_demand (now : Int) (m : MedicineInventory → String)
    (k : AlertType) (g : MedicineInventory → String)
    (l : List MedicineInventory) :
    ∀ s : AlertState, ∀ item ∈ l,
      hasAlert (gocFold now m k g l s).alerts (m item) k = true := by
  induction l with
  | nil => intro s item h; simp at h
  | cons hd t ih =>
    intro s item hmem
    rcases List.mem_cons.1 hmem with hmem | hmem
    · subst hmem
      exact gocFold_mono now m k g t (m item) k _
        (hasAlert_goc_self now s (m item) k (g item))
    · exact ih _ item hmem

theorem gocFold_noop (now : Int) (m : MedicineInventory → String)
    (k : AlertType) (g : MedicineInventory → String)
    (l : List MedicineInventory) :
    ∀ s : AlertState, (∀ item ∈ l, hasAlert s.alerts (m item) k = true) →
      gocFold now m k g l s = s := by
  induction l with
  | nil => intro s _; rfl
  | cons hd t ih =>
    intro s h
    have hstep : get_or_create_alert now s (m hd) k (g hd) = s :=
      goc_noop now s (m hd) k (g hd) (h hd (List.mem_cons_self hd t))
    show gocFold now m k g t (get_or_create_alert now s (m hd) k (g hd)) = s
    rw [hstep]
    exact ih s (fun item hmem => h item (List.mem_cons_of_mem hd hmem))

theorem gocFold_unique (now : Int) (m : MedicineInventory → String)
    (k : AlertType) (g : MedicineInventory → String)
    (l : List MedicineInventory) :
    ∀ s : AlertState, alertKeyUnique s.alerts →
      alertKeyUnique (gocFold now m k g l s).alerts := by
  induction l with
  | nil => intro s h; exact h
  | cons hd t ih =>
    intro s h
    exact ih _ (goc_unique now s (m hd) k (g hd) h)

theorem foldl_if_filter {α β : Type} (f : β → α → β) (c : α → Bool) :
    ∀ (l : List α) (s : β),
      l.foldl (fun s a => if c a then f s a else s) s =
        (l.filter c).foldl f s := by
  intro l
  induction l with
  | nil => intro s; rfl
  | cons a t ih =>
    intro s
    rw [List.filter_cons]
    by_cases hc : c a
    · simp only [hc, if_true, List.foldl_cons]
      exact ih (f s a)
    · simp only [hc, Bool.false_eq_true, if_false, List.foldl_cons]
      exact ih s

theorem scanLowStock_eq (db : DB) (now : Int) (s : AlertState) :
    scanLowStock db now s =
      gocFold now (fun item => item.medicine_name) .low_stock
        (lowStockMessage db)
        (db.inventory.filter (fun e => is_low_stock db e)) s := by
  unfold scanLowStock gocFold
  exact foldl_if_filter _ _ db.inventory s

/-! ## C5: every operation preserves alert-key uniqueness -/

theorem quick_dispense_alerts (db : DB) (today now : Int) (user : String)
    (r : DispenseRequest) :
    (quick_dispense db today now user r).1.alerts = db.alerts := by
  by_cases hv : quickDispenseForm_is_valid r
  · cases hf : firstByOrdering (db.inventory.filter
        (matchKey r.medicine_name r.batch_no)) with
    | none => rw [quick_dispense_notFound_eq db today now user r hv hf]
    | some item =>
      by_cases hb : balance db r.medicine_name r.batch_no < (r.quantity : Int)
      · rw [quick_dispense_insufficient_eq db today now user r item hv hf hb]
      · rw [quick_dispense_success_eq db today now user r item hv hf hb]
  · rw [quick_dispense_invalid_eq db today now user r (by simpa using hv)]

theorem add_inventory_unique (db : DB) (today now : Int) (user : String)
    (e : MedicineInventory) (h : alertKeyUnique db.alerts) :
    alertKeyUnique (add_inventory db today now user e).1.alerts := by
  unfold add_inventory
  cases hc : medicineInventoryForm_clean today e with
  | error err => exact h
  | ok u =>
    dsimp only
    split
    all_goals split
    all_goals first
      | (apply goc_unique; exact h)
      | exact h

theorem acknowledge_unique (db : DB) (alert_id : Nat) (user : String)
    (now : Int) (h : alertKeyUnique db.alerts) :
    alertKeyUnique (acknowledge db alert_id user now).1.alerts := by
  unfold acknowledge
  split
  · unfold alertKeyUnique at h ⊢
    rw [List.pairwise_map]
    refine h.imp ?_
    intro a b hab
    have hkeys : ∀ x : StockAlert,
        (ackUpdate alert_id user now x).medicine_name = x.medicine_name ∧
        (ackUpdate alert_id user now x).alert_type = x.alert_type := by
      intro x
      unfold ackUpdate
      constructor <;> split <;> rfl
    rw [(hkeys a).1, (hkeys a).2, (hkeys b).1, (hkeys b).2]
    exact hab
  · exact h

theorem purge_unique (db : DB) (now : Int) (h : alertKeyUnique db.alerts) :
    alertKeyUnique (purge_old_alerts db now).1.alerts := by
  unfold purge_old_alerts
  exact List.Pairwise.sublist (List.filter_sublist _) h

theorem scan_alerts_unique (db : DB) (today now : Int) (thr : Nat)
    (h : alertKeyUnique db.alerts) :
    alertKeyUnique (scan_alerts db today now thr).1.alerts := by
  unfold scan_alerts
  dsimp only
  rw [scanLowStock_eq]
  apply gocFold_unique
  unfold scanNearExpiry
  apply gocFold_unique
  unfold scanExpired
  apply gocFold_unique
  exact h

theorem reachable_alertKeyUnique : ∀ db, Reachable db →
    alertKeyUnique db.alerts := by
  intro db h
  induction h with
  | init => exact List.Pairwise.nil
  | dispense db today now user r hr ih =>
    rw [quick_dispense_alerts]
    exact ih
  | add db today now user e hr ih => exact add_inventory_unique _ _ _ _ _ ih
  | imp db user rows hr ih => exact ih
  | scan db today now threshold hr ih => exact scan_alerts_unique _ _ _ _ ih
  | ack db alert_id user now hr ih => exact acknowledge_unique _ _ _ _ ih
  | purge db now hr ih => exact purge_unique _ _ ih

/-! ## C5: scanning with nothing new to report changes nothing -/

theorem scan_alerts_demands_present (db : DB) (today now : Int) (thr : Nat) :
    (∀ item ∈ db.inventory.filter (fun e => decide (e.expiry_date ≤ today)),
      hasAlert (scan_alerts db today now thr).1.alerts
        item.medicine_name .expired = true) ∧
    (∀ item ∈ db.inventory.filter (fun e => decide (today < e.expiry_date) &&
        decide (e.expiry_date ≤ today + (thr : Int))),
      hasAlert (scan_alerts db today now thr).1.alerts
        item.medicine_name .near_expiry = true) ∧
    (∀ item ∈ db.inventory.filter (fun e => is_low_stock db e),
      hasAlert (scan_alerts db today now thr).1.alerts
        item.medicine_name .low_stock = true) := by
  unfold scan_alerts
  dsimp only
  refine ⟨?_, ?_, ?_⟩
  · intro item hmem
    have h1 : hasAlert (scanExpired db today now
        ⟨db.alerts, db.nextAlertId, 0⟩).alerts item.medicine_name
        .expired = true := by
      unfold scanExpired
      exact gocFold_demand now _ _ _ _ _ item hmem
    have h2 : hasAlert (scanNearExpiry db today now thr (scanExpired db today
        now ⟨db.alerts, db.nextAlertId, 0⟩)).alerts item.medicine_name
        .expired = true := by
      unfold scanNearExpiry
      exact gocFold_mono now _ _ _ _ _ _ _ h1
    rw [scanLowStock_eq]
    exact gocFold_mono now _ _ _ _ _ _ _ h2
  · intro item hmem
    have h2 : hasAlert (scanNearExpiry db today now thr (scanExpired db today
        now ⟨db.alerts, db.nextAlertId, 0⟩)).alerts item.medicine_name
        .near_expiry = true := by
      unfold scanNearExpiry
      exact gocFold_demand now _ _ _ _ _ item hmem
    rw [scanLowStock_eq]
    exact gocFold_mono now _ _ _ _ _ _ _ h2
  · intro item hmem
    rw [scanLowStock_eq]
    exact gocFold_demand now _ _ _ _ _ item hmem

theorem scan_alerts_noop (db : DB) (today now : Int) (thr : Nat)
    (h1 : ∀ item ∈ db.inventory.filter
        (fun e => decide (e.expiry_date ≤ today)),
      hasAlert db.alerts item.medicine_name .expired = true)
    (h2 : ∀ item ∈ db.inventory.filter
        (fun e => decide (today < e.expiry_date) &&
          decide (e.expiry_date ≤ today + (thr : Int))),
      hasAlert db.alerts item.medicine_name .near_expiry = true)
    (h3 : ∀ item ∈ db.inventory.filter (fun e => is_low_stock db e),
      hasAlert db.alerts item.medicine_name .low_stock = true) :
    scan_alerts db today now thr = (db, 0) := by
  unfold scan_alerts
  have he : scanExpired db today now ⟨db.alerts, db.nextAlertId, 0⟩ =
      ⟨db.alerts, db.nextAlertId, 0⟩ := by
    unfold scanExpired
    exact gocFold_noop now _ _ _ _ _ h1
  have hn : scanNearExpiry db today now thr ⟨db.alerts, db.nextAlertId, 0⟩ =
      ⟨db.alerts, db.nextAlertId, 0⟩ := by
    unfold scanNearExpiry
    exact gocFold_noop now _ _ _ _ _ h2
  have hl : scanLowStock db now ⟨db.alerts, db.nextAlertId, 0⟩ =
      ⟨db.alerts, db.nextAlertId, 0⟩ := by
    rw [scanLowStock_eq]
    exact gocFold_noop now _ _ _ _ _ h3
  simp only [he, hn, hl]

theorem scan_alerts_idempotent (db : DB) (today now now2 : Int) (thr : Nat) :
    scan_alerts (scan_alerts db today now thr).1 today now2 thr =
      ((scan_alerts db today now thr).1, 0) := by
  obtain ⟨hp1, hp2, hp3⟩ := scan_alerts_demands_present db today now thr
  exact scan_alerts_noop (scan_alerts db today now thr).1 today now2 thr
    (fun item hmem => hp1 item hmem) (fun item hmem => hp2 item hmem)
    (fun item hmem => hp3 item hmem)

/-- C5: in every reachable store at most one alert row exists per
(medicine name, alert kind) pair; `get_or_create` is a no-op whenever a
row of the key exists, acknowledged or not; and running the alert scan
twice in a row with the same date and no ledger change in between leaves
the store unchanged and creates zero alerts the second time. -/
theorem alert_dedup_and_scan_idempotence :
    (∀ db, Reachable db → alertKeyUnique db.alerts) ∧
    (∀ (now : Int) (s : AlertState) (med : String) (ty : AlertType)
        (msg : String), hasAlert s.alerts med ty = true →
      get_or_create_alert now s med ty msg = s) ∧
    (∀ (db : DB) (today now now2 : Int) (thr : Nat),
      scan_alerts (scan_alerts db today now thr).1 today now2 thr =
        ((scan_alerts db today now thr).1, 0)) :=
  ⟨reachable_alertKeyUnique, goc_noop, scan_alerts_idempotent⟩

/-- Witness for `alert_dedup_and_scan_idempotence`: a store reached by one
CSV import and one scan has no duplicate alert keys; re-creating an
existing LOW_STOCK alert is a no-op; re-scanning a just-scanned store
creates nothing. -/
theorem alert_dedup_and_scan_idempotence_witness :
    alertKeyUnique (scan_alerts (import_csv initDB "importer" [badRow])
      0 5000 30).1.alerts ∧
    get_or_create_alert 7 ⟨[alertA], 1, 0⟩ "Amoxicillin" .low_stock "msg" =
      ⟨[alertA], 1, 0⟩ ∧
    scan_alerts (scan_alerts dbA 101 5000 30).1 101 6000 30 =
      ((scan_alerts dbA 101 5000 30).1, 0) :=
  ⟨alert_dedup_and_scan_idempotence.1 _
    (Reachable.scan _ 0 5000 30 (Reachable.imp initDB "importer" [badRow]
      Reachable.init)),
   alert_dedup_and_scan_idempotence.2.1 7 ⟨[alertA], 1, 0⟩ "Amoxicillin"
    .low_stock "msg" (by decide),
   alert_dedup_and_scan_idempotence.2.2 dbA 101 5000 6000 30⟩

/-! ## C6: where the cross-field validation does and does not run -/

theorem medicineInventoryForm_clean_ok_iff (today : Int)
    (e : MedicineInventory) :
    medicineInventoryForm_clean today e = .ok () ↔
      (today < e.expiry_date ∧
       ¬(e.quantity_in = 0 ∧ e.quantity_out = 0) ∧
       ¬(0 < e.quantity_in ∧ 0 < e.quantity_out) ∧
       (0 < e.quantity_out → e.dispensed_to ≠ "")) := by
  unfold medicineInventoryForm_clean
  split_ifs with h1 h2 h3 h4
  · constructor
    · intro hok; simp at hok
    · intro hx; exact absurd hx.1 (by omega)
  · constructor
    · intro hok; simp at hok
    · intro hx
      rw [Bool.and_eq_true, beq_iff_eq, beq_iff_eq] at h2
      exact absurd h2 hx.2.1
  · constructor
    · intro hok; simp at hok
    · intro hx
      rw [Bool.and_eq_true, decide_eq_true_eq, decide_eq_true_eq] at h3
      exact absurd h3 hx.2.2.1
  · constructor
    · intro hok; simp at hok
    · intro hx
      rw [Bool.and_eq_true, decide_eq_true_eq, beq_iff_eq] at h4
      exact absurd h4.2 (hx.2.2.2 h4.1)
  · constructor
    · intro _
      rw [Bool.and_eq_true, beq_iff_eq, beq_iff_eq] at h2
      rw [Bool.and_eq_true, decide_eq_true_eq, decide_eq_true_eq] at h3
      rw [Bool.and_eq_true, decide_eq_true_eq, beq_iff_eq] at h4
      exact ⟨by omega, h2, h3, fun hq hd => h4 ⟨hq, hd⟩⟩
    · intro _; rfl

theorem add_inventory_invalid (db : DB) (today now : Int) (user : String)
    (e : MedicineInventory) (err : FormError)
    (hc : medicineInventoryForm_clean today e = .error err) :
    add_inventory db today now user e = (db, false) := by
  unfold add_inventory
  rw [hc]

theorem import_filterMap_length (user : String) :
    ∀ (rows : List CsvRow) (n : Nat),
      ((List.enumFrom n rows).filterMap
        (fun p => import_row p.1 user p.2)).length =
      (rows.filter (fun r => !(r.medicine_name == ""))).length := by
  intro rows
  induction rows with
  | nil => intro n; rfl
  | cons r t ih =>
    intro n
    rw [List.enumFrom_cons, List.filterMap_cons, List.filter_cons]
    by_cases hr : r.medicine_name == ""
    · have hnone : import_row n user r = none := by
        unfold import_row
        rw [if_pos hr]
      rw [hnone]
      simp only [hr, Bool.not_true, Bool.false_eq_true, if_false]
      exact ih (n + 1)
    · have hsome : ∃ m, import_row n user r = some m := by
        unfold import_row
        rw [if_neg hr]
        exact ⟨_, rfl⟩
      obtain ⟨m, hm⟩ := hsome
      rw [hm]
      simp only [hr, Bool.not_false, if_true, List.length_cons]
      rw [ih (n + 1)]

theorem import_csv_length (db : DB) (user : String) (rows : List CsvRow) :
    (import_csv db user rows).inventory.length =
      db.inventory.length +
        (rows.filter (fun r => !(r.medicine_name == ""))).length := by
  unfold import_csv
  dsimp only
  rw [List.length_append, List.length_map, List.enumFrom_length,
    import_filterMap_length]

/-- C6 counterexample: a CSV row with `quantity_in = 0`, `quantity_out = 0`
and an expiry date in the past is persisted as-is by the bulk import; no
validation error rejects it. -/
theorem import_csv_bypasses_validation :
    ((import_csv initDB "importer" [badRow]).inventory.map
      (fun e => (e.quantity_in, e.quantity_out, e.expiry_date))) =
      [(0, 0, -5)] := by decide

/-- C6 amended: entries submitted through the manual add form are validated
before persistence — zero-zero quantities, both-positive quantities, a
dispense without recipient, and a non-future expiry date are each
rejected, and a rejected entry is not persisted; entries fed to the CSV
bulk import bypass this validation entirely: every row with a non-empty
medicine name is persisted, whatever its quantities or expiry date. -/
theorem validation_rules_form_only :
    (∀ (today : Int) (e : MedicineInventory),
      medicineInventoryForm_clean today e = .ok () ↔
        (today < e.expiry_date ∧
         ¬(e.quantity_in = 0 ∧ e.quantity_out = 0) ∧
         ¬(0 < e.quantity_in ∧ 0 < e.quantity_out) ∧
         (0 < e.quantity_out → e.dispensed_to ≠ ""))) ∧
    (∀ (db : DB) (today now : Int) (user : String) (e : MedicineInventory)
        (err : FormError),
      medicineInventoryForm_clean today e = .error err →
      add_inventory db today now user e = (db, false)) ∧
    (∀ (db : DB) (user : String) (rows : List CsvRow),
      (import_csv db user rows).inventory.length =
        db.inventory.length +
          (rows.filter (fun r => !(r.medicine_name == ""))).length) :=
  ⟨medicineInventoryForm_clean_ok_iff, add_inventory_invalid,
    import_csv_length⟩

/-- Witness for `validation_rules_form_only`: the zero-zero entry is
rejected by the form and not persisted, while the invalid CSV row is
counted into the imported table. -/
theorem validation_rules_form_only_witness :
    add_inventory initDB 0 0 "staff" zeroZeroEntry = (initDB, false) ∧
    (import_csv initDB "importer" [badRow]).inventory.length =
      initDB.inventory.length +
        ([badRow].filter (fun r => !(r.medicine_name == ""))).length :=
  ⟨validation_rules_form_only.2.1 initDB 0 0 "staff" zeroZeroEntry
      .zeroZero (by rfl),
   validation_rules_form_only.2.2 initDB "importer" [badRow]⟩

/-! ## C7: the expiry and low-stock predicates -/

/-- C7 counterexample: on its own expiry date an entry already counts as
expired (`expiry_date ≤ today`) while `days_to_expiry` is `0`, not
negative — so "days_to_expiry is negative once the entry is expired"
fails at this boundary. -/
theorem expired_entry_zero_days :
    is_expired entryA 100 = true ∧ days_to_expiry entryA 100 = 0 := by
  exact ⟨by decide, by decide⟩

/-- C7 amended: `is_expired` is true exactly when the expiry date is on or
before the current date; `days_to_expiry` is the signed whole-day
difference, negative exactly when the current date is strictly past the
expiry date (on the expiry date itself the entry is already expired with
`days_to_expiry = 0`); the spec scenario — expiry one day ahead, read two
days later — gives expired with `days_to_expiry = -1`; and `is_low_stock`
holds exactly when the key's balance is below the entry's
`minimum_stock_level`. -/
theorem expiry_and_low_stock_predicates (e : MedicineInventory)
    (today t : Int) (db : DB) :
    (is_expired e today = true ↔ e.expiry_date ≤ today) ∧
    days_to_expiry e today = e.expiry_date - today ∧
    (days_to_expiry e today < 0 ↔ e.expiry_date < today) ∧
    (is_expired { e with expiry_date := t + 1 } (t + 2) = true ∧
     days_to_expiry { e with expiry_date := t + 1 } (t + 2) = -1) ∧
    (is_low_stock db e = true ↔
      balance db e.medicine_name e.batch_no < (e.minimum_stock_level : Int)) := by
  refine ⟨?_, rfl, ?_, ⟨?_, ?_⟩, ?_⟩
  · simp [is_expired]
  · unfold days_to_expiry
    omega
  · simp only [is_expired, decide_eq_true_eq]
    omega
  · show (t + 1 : Int) - (t + 2) = -1
    omega
  · simp [is_low_stock]

/-! ## C8: what acknowledging an alert does -/

/-- C8 counterexample: acknowledging the same alert again at a later time
by another user does not error, but it overwrites the first
acknowledgment's principal and timestamp — a state change beyond the
first acknowledgment. -/
theorem acknowledge_twice_overwrites :
    ((acknowledge dbAlert 0 "alice" 100).1.alerts.map
      (fun a => (a.is_acknowledged, a.acknowledged_by, a.acknowledged_at))) =
      [(true, some "alice", some 100)] ∧
    (acknowledge (acknowledge dbAlert 0 "alice" 100).1 0 "bob" 200).2 =
      true ∧
    ((acknowledge (acknowledge dbAlert 0 "alice" 100).1 0
        "bob" 200).1.alerts.map
      (fun a => (a.is_acknowledged, a.acknowledged_by, a.acknowledged_at))) =
      [(true, some "bob", some 200)] := by
  exact ⟨by decide, by decide, by decide⟩

theorem acknowledge_eq_of_found (db : DB) (alert_id : Nat) (user : String)
    (now : Int) (hs : (db.alerts.find? (fun a => a.id == alert_id)).isSome) :
    acknowledge db alert_id user now =
      ({ db with alerts := db.alerts.map (ackUpdate alert_id user now) },
        true) := by
  unfold acknowledge
  rw [if_pos hs]

theorem acknowledge_found_of_mem (db : DB) (alert_id : Nat) (a : StockAlert)
    (ha : a ∈ db.alerts) (haid : a.id = alert_id) :
    (db.alerts.find? (fun x => x.id == alert_id)).isSome :=
  List.find?_isSome.2 ⟨a, ha, by simp [haid]⟩

/-- C8 amended: acknowledging an alert that exists sets its acknowledged
flag, principal and timestamp and reports success; acknowledging it again
does not error and keeps the flag set, but it is not a no-op — the second
acknowledgment overwrites the principal and timestamp with its own values
(last write wins), so re-acknowledging is equivalent to having
acknowledged once with the second principal and time. -/
theorem acknowledge_last_write_wins (db : DB) (alert_id : Nat)
    (u1 u2 : String) (t1 t2 : Int) (a : StockAlert) (ha : a ∈ db.alerts)
    (haid : a.id = alert_id) :
    ((acknowledge db alert_id u1 t1).2 = true ∧
     { a with
         is_acknowledged := true
         acknowledged_by := some u1
         acknowledged_at := some t1 } ∈
       (acknowledge db alert_id u1 t1).1.alerts) ∧
    ((acknowledge (acknowledge db alert_id u1 t1).1 alert_id u2 t2).2 =
      true ∧
     (acknowledge (acknowledge db alert_id u1 t1).1 alert_id u2 t2).1 =
       (acknowledge db alert_id u2 t2).1) := by
  have hs : (db.alerts.find? (fun x => x.id == alert_id)).isSome :=
    acknowledge_found_of_mem db alert_id a ha haid
  have h1 := acknowledge_eq_of_found db alert_id u1 t1 hs
  have hupd : ackUpdate alert_id u1 t1 a =
      { a with
          is_acknowledged := true
          acknowledged_by := some u1
          acknowledged_at := some t1 } := by
    unfold ackUpdate
    rw [if_pos (by simp [haid])]
  have hs2 : (((acknowledge db alert_id u1 t1).1).alerts.find?
      (fun x => x.id == alert_id)).isSome := by
    rw [h1]
    exact acknowledge_found_of_mem _ alert_id (ackUpdate alert_id u1 t1 a)
      (List.mem_map_of_mem _ ha)
      (by unfold ackUpdate; split <;> simpa using haid)
  have h2 := acknowledge_eq_of_found (acknowledge db alert_id u1 t1).1
    alert_id u2 t2 hs2
  have h3 := acknowledge_eq_of_found db alert_id u2 t2 hs
  refine ⟨⟨by rw [h1], ?_⟩, by rw [h2], ?_⟩
  · rw [h1]
    rw [← hupd]
    exact List.mem_map_of_mem _ ha
  · rw [h2, h3, h1]
    simp only [List.map_map]
    congr 1
    apply List.map_congr_left
    intro x _
    show ackUpdate alert_id u2 t2 (ackUpdate alert_id u1 t1 x) =
      ackUpdate alert_id u2 t2 x
    by_cases hx : (x.id == alert_id) = true
    · have e1 : ackUpdate alert_id u1 t1 x =
          { x with
              is_acknowledged := true
              acknowledged_by := some u1
              acknowledged_at := some t1 } := by
        unfold ackUpdate
        rw [if_pos hx]
      rw [e1]
      unfold ackUpdate
      rw [if_pos hx, if_pos hx]
    · have e1 : ackUpdate alert_id u1 t1 x = x := by
        unfold ackUpdate
        rw [if_neg hx]
      rw [e1]

/-- Witness for `acknowledge_last_write_wins` at the one-alert store. -/
theorem acknowledge_last_write_wins_witness :
    ((acknowledge dbAlert 0 "alice" 100).2 = true ∧
     { alertA with
         is_acknowledged := true
         acknowledged_by := some "alice"
         acknowledged_at := some (100 : Int) } ∈
       (acknowledge dbAlert 0 "alice" 100).1.alerts) ∧
    ((acknowledge (acknowledge dbAlert 0 "alice" 100).1 0 "bob" 200).2 =
      true ∧
     (acknowledge (acknowledge dbAlert 0 "alice" 100).1 0 "bob" 200).1 =
       (acknowledge dbAlert 0 "bob" 200).1) :=
  acknowledge_last_write_wins dbAlert 0 "alice" "bob" 100 200 alertA
    (by decide) rfl

/-! ## C9: the retention sweep boundary -/

/-- C9: the retention sweep keeps exactly the alerts that are not both
acknowledged and stamped at or before `now − 30 days`; unacknowledged
alerts survive regardless of age; and on the concrete fixtures the alert
acknowledged 31 days ago is deleted (counted once) while the one
acknowledged 29 days ago and the old unacknowledged one remain. -/
theorem purge_retention_boundary :
    (∀ (db : DB) (now : Int) (a : StockAlert),
      a ∈ (purge_old_alerts db now).1.alerts ↔
        (a ∈ db.alerts ∧ ¬(a.is_acknowledged = true ∧
          ∃ t, a.acknowledged_at = some t ∧ t ≤ now - 30 * 86400))) ∧
    (∀ (db : DB) (now : Int) (a : StockAlert), a ∈ db.alerts →
      a.is_acknowledged = false → a ∈ (purge_old_alerts db now).1.alerts) ∧
    ((purge_old_alerts dbPurge 0).1.alerts = [ack29, unackOld] ∧
     (purge_old_alerts dbPurge 0).2 = 1) := by
  have hiff : ∀ (now : Int) (x : StockAlert),
      (x.is_acknowledged &&
        match x.acknowledged_at with
        | some t => decide (t ≤ now - 30 * 86400)
        | none => false) = true ↔
      (x.is_acknowledged = true ∧ ∃ t, x.acknowledged_at = some t ∧
        t ≤ now - 30 * 86400) := by
    intro now x
    rw [Bool.and_eq_true]
    constructor
    · intro hx
      obtain ⟨h1, h2⟩ := hx
      refine ⟨h1, ?_⟩
      cases hat : x.acknowledged_at with
      | none => rw [hat] at h2; simp at h2
      | some t =>
        rw [hat] at h2
        exact ⟨t, rfl, by simpa using h2⟩
    · intro hx
      obtain ⟨h1, t, hat, ht⟩ := hx
      refine ⟨h1, ?_⟩
      rw [hat]
      simpa using ht
  have hmem : ∀ (db : DB) (now : Int) (a : StockAlert),
      a ∈ (purge_old_alerts db now).1.alerts ↔
        (a ∈ db.alerts ∧ ¬(a.is_acknowledged = true ∧
          ∃ t, a.acknowledged_at = some t ∧ t ≤ now - 30 * 86400)) := by
    intro db now a
    unfold purge_old_alerts
    rw [List.mem_filter]
    constructor
    · intro hx
      obtain ⟨hin, hb⟩ := hx
      have hb' : (a.is_acknowledged &&
          match a.acknowledged_at with
          | some t => decide (t ≤ now - 30 * 86400)
          | none => false) = false := by
        have hb2 : (!(a.is_acknowledged &&
            match a.acknowledged_at with
            | some t => decide (t ≤ now - 30 * 86400)
            | none => false)) = true := hb
        cases hq : (a.is_acknowledged &&
            match a.acknowledged_at with
            | some t => decide (t ≤ now - 30 * 86400)
            | none => false) with
        | false => rfl
        | true => rw [hq] at hb2; simp at hb2
      refine ⟨hin, fun hx => ?_⟩
      have htrue := (hiff now a).2 hx
      rw [htrue] at hb'
      exact absurd hb' (by simp)
    · intro hx
      obtain ⟨hin, hb⟩ := hx
      refine ⟨hin, ?_⟩
      have hfalse : (a.is_acknowledged &&
          match a.acknowledged_at with
          | some t => decide (t ≤ now - 30 * 86400)
          | none => false) = false := by
        cases hq : (a.is_acknowledged &&
            match a.acknowledged_at with
            | some t => decide (t ≤ now - 30 * 86400)
            | none => false) with
        | false => rfl
        | true => exact absurd ((hiff now a).1 hq) hb
      show (!(a.is_acknowledged &&
          match a.acknowledged_at with
          | some t => decide (t ≤ now - 30 * 86400)
          | none => false)) = true
      rw [hfalse]
      rfl
  refine ⟨hmem, ?_, by decide, by decide⟩
  intro db now a hin hack
  rw [hmem]
  refine ⟨hin, ?_⟩
  intro hx
  rw [hx.1] at hack
  simp at hack

/-- Witness for `purge_retention_boundary`: the old unacknowledged alert
survives the sweep. -/
theorem purge_retention_boundary_witness :
    unackOld ∈ (purge_old_alerts dbPurge 0).1.alerts :=
  purge_retention_boundary.2.1 dbPurge 0 unackOld (by decide) rfl

end Pharmacy
